import Mathlib

/-!
Verification of the Recommendation-API allocation core.

The Python source (src/model.py, src/recommendation_service.py, src/main.py)
is embedded shallowly: pydantic models become structures over `Int` (Python
integers are unbounded), lists stay `List`, the optional `topic_progress`
parameter becomes `Option TopicProgress`, and the fallible validation gate
returns `Except String Unit`.  Python's `//` and `%` on integers are floor
division and a remainder with the divisor's sign; every divisor in this code
is a positive list length, for which they agree with Lean's `Int./` (`ediv`)
and `Int.%` (`emod`).
-/

/-- model.py `LevelAvailability`: available questions for one level. -/
structure LevelAvailability where
  level : Int
  count : Int
deriving Repr, DecidableEq

/-- model.py `TopicAvailability`: a topic with its available levels. -/
structure TopicAvailability where
  topic : String
  available : List LevelAvailability
deriving Repr, DecidableEq

/-- model.py `LevelProgress`: the user's progress at one level. -/
structure LevelProgress where
  level : Int
  solved : Int
  attempted : Int
deriving Repr, DecidableEq

/-- model.py `TopicProgress`: the user's progress for one topic. -/
structure TopicProgress where
  topic : String
  progress_by_level : List LevelProgress
deriving Repr, DecidableEq

/-- model.py `RecommendationRequest`. -/
structure RecommendationRequest where
  user_id : Int
  total_questions : Int
  user_topics : List TopicAvailability
  user_progress : List TopicProgress
deriving Repr, DecidableEq

/-- model.py `LevelRecommendation`: output count for one level. -/
structure LevelRecommendation where
  level : Int
  count : Int
deriving Repr, DecidableEq

/-- model.py `TopicRecommendation`. -/
structure TopicRecommendation where
  name : String
  recommendations : List LevelRecommendation
deriving Repr, DecidableEq

/-- model.py `RecommendationResponse`. -/
structure RecommendationResponse where
  topics : List TopicRecommendation
deriving Repr, DecidableEq

/-- model.py `TopicRecommendation.total_recommended`:
sum of recommended counts over the topic's levels. -/
def TopicRecommendation.total_recommended (t : TopicRecommendation) : Int :=
  (t.recommendations.map (fun rec => rec.count)).sum

/-- model.py `RecommendationResponse.total_recommended`:
sum of recommended counts over all topics. -/
def RecommendationResponse.total_recommended (r : RecommendationResponse) : Int :=
  (r.topics.map (fun topic => topic.total_recommended)).sum

/-- recommendation_service.py line 150: the raw (pre-clamp) count for the
level at 0-based index `i`, given `base = total_questions // level_count`
and `extra = total_questions % level_count`:
`base_questions_per_level + (1 if i < extra_questions else 0)`. -/
def questions_for_level (base extra : Int) (i : Nat) : Int :=
  base + (if (i : Int) < extra then 1 else 0)

/-- recommendation_service.py `EvenDistributionStrategy.distribute_questions`
(lines 123-166).  The `topic_progress` parameter is accepted and unused,
exactly as in the source (the progress-adjustment block is commented out). -/
def EvenDistributionStrategy.distribute_questions
    (available_levels : List LevelAvailability) (total_questions : Int)
    (topic_progress : Option TopicProgress := none) : List LevelRecommendation :=
  if available_levels.isEmpty then []
  else
    let level_count : Int := available_levels.length
    let base_questions_per_level := total_questions / level_count
    let extra_questions := total_questions % level_count
    available_levels.enum.map (fun p =>
      let questions := questions_for_level base_questions_per_level extra_questions p.1
      let recommended_count := min questions p.2.count
      { level := p.2.level, count := recommended_count })

/-- recommendation_service.py
`ProgressAwareDistributionStrategy.distribute_questions` (lines 175-194):
falls back to even distribution unchanged. -/
def ProgressAwareDistributionStrategy.distribute_questions
    (available_levels : List LevelAvailability) (total_questions : Int)
    (topic_progress : Option TopicProgress := none) : List LevelRecommendation :=
  EvenDistributionStrategy.distribute_questions available_levels total_questions
    topic_progress

/-- recommendation_service.py `RecommendationService._create_progress_lookup`
(lines 48-52): a dict comprehension keyed by topic name; a later entry with
the same name overwrites an earlier one, so `.get` returns the last match. -/
def RecommendationService.create_progress_lookup
    (user_progress : List TopicProgress) : String → Option TopicProgress :=
  fun name => user_progress.reverse.find? (fun progress => progress.topic == name)

/-- recommendation_service.py `RecommendationService._calculate_topic_allocation`
(lines 89-104): `total_questions // total_topics if total_topics > 0 else 0`.
The `current_topic` argument is ignored by the current policy, as in the
source. -/
def RecommendationService.calculate_topic_allocation
    (current_topic : TopicAvailability) (total_questions : Int)
    (all_topics : List TopicAvailability) : Int :=
  let total_topics : Int := all_topics.length
  if total_topics > 0 then total_questions / total_topics else 0

/-- recommendation_service.py `RecommendationService._recommend_for_topic`
(lines 54-87).  `all_topics or [topic]` falls back to `[topic]` when the
passed list is empty.  The service's strategy is the even-distribution one
(set in `__init__`). -/
def RecommendationService.recommend_for_topic
    (topic : TopicAvailability) (total_questions : Int)
    (topic_progress : Option TopicProgress)
    (all_topics : List TopicAvailability) : TopicRecommendation :=
  let topic_question_allocation :=
    RecommendationService.calculate_topic_allocation topic total_questions
      (if all_topics.isEmpty then [topic] else all_topics)
  let level_recommendations :=
    EvenDistributionStrategy.distribute_questions topic.available
      topic_question_allocation topic_progress
  { name := topic.topic, recommendations := level_recommendations }

/-- recommendation_service.py `RecommendationService.generate_recommendations`
(lines 19-46): builds the progress lookup, then one `TopicRecommendation`
per topic of the request, in order. -/
def RecommendationService.generate_recommendations
    (request : RecommendationRequest) : RecommendationResponse :=
  let progress_lookup :=
    RecommendationService.create_progress_lookup request.user_progress
  let topic_recommendations := request.user_topics.map (fun topic =>
    RecommendationService.recommend_for_topic topic request.total_questions
      (progress_lookup topic.topic) request.user_topics)
  { topics := topic_recommendations }

/-- main.py `_validate_recommendation_request`, per-topic loop (lines
117-126): the first topic in input order with an empty `available` list or a
zero inventory sum determines the error, empty-levels checked first. -/
def validate_topics : List TopicAvailability → Except String Unit
  | [] => .ok ()
  | topic :: rest =>
    if topic.available.isEmpty then
      .error ("Topic '" ++ topic.topic ++ "' must have at least one available level")
    else if (topic.available.map (fun level => level.count)).sum = 0 then
      .error ("Topic '" ++ topic.topic ++ "' has no available questions")
    else validate_topics rest

/-- main.py `_validate_recommendation_request` (lines 100-128): fails fast
with a distinct message per rule, in declaration order. -/
def validate_recommendation_request
    (request : RecommendationRequest) : Except String Unit :=
  if request.user_topics.isEmpty then
    .error "At least one topic must be provided"
  else if request.total_questions ≤ 0 then
    .error "Total questions must be greater than 0"
  else validate_topics request.user_topics

/-- main.py `recommend_questions` endpoint (lines 52-97), transport stripped:
validation runs first and a validation failure short-circuits the service
call, so no allocation is computed for a rejected request. -/
def recommend_questions
    (request : RecommendationRequest) : Except String RecommendationResponse :=
  match validate_recommendation_request request with
  | .error e => .error e
  | .ok _ => .ok (RecommendationService.generate_recommendations request)

/-!
Checked variants for the safety analysis: the same functions with every
Python failure point made explicit — `//` and `%` raise `ZeroDivisionError`
on a zero divisor, and pydantic rejects a `LevelRecommendation` whose
`count` violates its `ge=0` constraint (model.py line 75).
-/

/-- pydantic construction of `LevelRecommendation`: fails when `count < 0`. -/
def checked_mk_level_recommendation (level count : Int) :
    Option LevelRecommendation :=
  if 0 ≤ count then some { level := level, count := count } else none

/-- Python `//`: raises on a zero divisor. -/
def checked_div (a b : Int) : Option Int :=
  if b = 0 then none else some (a / b)

/-- Python `%`: raises on a zero divisor. -/
def checked_mod (a b : Int) : Option Int :=
  if b = 0 then none else some (a % b)

/-- `EvenDistributionStrategy.distribute_questions` with its fallible
operations explicit. -/
def EvenDistributionStrategy.distribute_questions_checked
    (available_levels : List LevelAvailability) (total_questions : Int)
    (topic_progress : Option TopicProgress := none) :
    Option (List LevelRecommendation) :=
  if available_levels.isEmpty then some []
  else
    let level_count : Int := available_levels.length
    (checked_div total_questions level_count).bind
      (fun base_questions_per_level =>
        (checked_mod total_questions level_count).bind (fun extra_questions =>
          available_levels.enum.mapM (fun p =>
            checked_mk_level_recommendation p.2.level
              (min (questions_for_level base_questions_per_level
                extra_questions p.1) p.2.count))))

/-- `RecommendationService._calculate_topic_allocation` with its fallible
division explicit. -/
def RecommendationService.calculate_topic_allocation_checked
    (current_topic : TopicAvailability) (total_questions : Int)
    (all_topics : List TopicAvailability) : Option Int :=
  let total_topics : Int := all_topics.length
  if total_topics > 0 then checked_div total_questions total_topics else some 0

/-- `RecommendationService._recommend_for_topic` with its fallible calls
explicit. -/
def RecommendationService.recommend_for_topic_checked
    (topic : TopicAvailability) (total_questions : Int)
    (topic_progress : Option TopicProgress)
    (all_topics : List TopicAvailability) : Option TopicRecommendation :=
  (RecommendationService.calculate_topic_allocation_checked topic
      total_questions (if all_topics.isEmpty then [topic] else all_topics)).bind
    (fun topic_question_allocation =>
      (EvenDistributionStrategy.distribute_questions_checked topic.available
          topic_question_allocation topic_progress).bind
        (fun level_recommendations =>
          some { name := topic.topic
                 recommendations := level_recommendations }))

/-- `RecommendationService.generate_recommendations` with its fallible calls
explicit. -/
def RecommendationService.generate_recommendations_checked
    (request : RecommendationRequest) : Option RecommendationResponse :=
  let progress_lookup :=
    RecommendationService.create_progress_lookup request.user_progress
  (request.user_topics.mapM (fun topic =>
      RecommendationService.recommend_for_topic_checked topic
        request.total_questions (progress_lookup topic.topic)
        request.user_topics)).bind
    (fun topic_recommendations => some { topics := topic_recommendations })

/-! ## Helper lemmas about the distributor -/

lemma EvenDistributionStrategy.length_distribute
    (l : List LevelAvailability) (A : Int) (p : Option TopicProgress) :
    (EvenDistributionStrategy.distribute_questions l A p).length = l.length := by
  cases l with
  | nil => rfl
  | cons a as =>
    simp [EvenDistributionStrategy.distribute_questions, List.enum_length]

lemma EvenDistributionStrategy.distribute_getElem
    (l : List LevelAvailability) (A : Int) (p : Option TopicProgress)
    (i : Nat) (hi : i < l.length) :
    (EvenDistributionStrategy.distribute_questions l A p)[i]? =
      some { level := l[i].level
             count := min (questions_for_level (A / l.length) (A % l.length) i)
                          l[i].count } := by
  cases l with
  | nil => simp at hi
  | cons a as =>
    simp [EvenDistributionStrategy.distribute_questions, List.getElem?_map,
      List.getElem?_enum, List.getElem?_eq_getElem hi]

/-- Sum of the raw per-level counts over indices `0 .. n-1`, for any
nonnegative remainder bound `e`. -/
lemma sum_questions_for_level (b e : Int) (he : 0 ≤ e) :
    ∀ n : Nat, ((List.range n).map (questions_for_level b e)).sum
      = n * b + min e n
  | 0 => by simpa using (min_eq_right he).symm
  | n + 1 => by
    rw [List.range_succ, List.map_append, List.sum_append,
      sum_questions_for_level b e he n]
    simp only [List.map_cons, List.map_nil, List.sum_cons, List.sum_nil,
      questions_for_level]
    push_cast
    have hexp : ((n : Int) + 1) * b = (n : Int) * b + b := by ring
    rw [hexp]
    by_cases h : (n : Int) < e
    · simp only [if_pos h]
      omega
    · simp only [if_neg h]
      omega

/-- The raw pre-clamp counts over all `L` level indices sum to exactly the
allocation. -/
lemma sum_raw_counts (L : Nat) (A : Int) (hL : 0 < L) (hA : 0 ≤ A) :
    ((List.range L).map
      (questions_for_level (A / (L : Int)) (A % (L : Int)))).sum = A := by
  have hL' : (0 : Int) < (L : Int) := by exact_mod_cast hL
  have he : 0 ≤ A % (L : Int) := Int.emod_nonneg A (by omega)
  rw [sum_questions_for_level _ _ he L]
  have hlt : A % (L : Int) < (L : Int) := Int.emod_lt_of_pos A hL'
  have hsum := Int.ediv_add_emod A (L : Int)
  omega

/-! ## C1, C2, C7, C8 -/

/-- C1: for every level sequence and allocation `A ≥ 0`, the even
distributor returns one `LevelRecommendation` per input level in input
order, where the level at 0-based index `i` receives
`min (base + (1 if i < extra else 0)) count` with `base = A / L` and
`extra = A % L`; on the empty level sequence it returns `[]`. -/
theorem even_distribution_per_level_spec
    (l : List LevelAvailability) (A : Int) (p : Option TopicProgress)
    (hA : 0 ≤ A) :
    EvenDistributionStrategy.distribute_questions [] A p = [] ∧
    (EvenDistributionStrategy.distribute_questions l A p).length = l.length ∧
    ∀ i, ∀ hi : i < l.length,
      (EvenDistributionStrategy.distribute_questions l A p)[i]? =
        some { level := l[i].level
               count := min (A / l.length + (if (i : Int) < A % l.length then 1 else 0))
                            l[i].count } := by
  refine ⟨rfl, EvenDistributionStrategy.length_distribute l A p, ?_⟩
  intro i hi
  exact EvenDistributionStrategy.distribute_getElem l A p i hi

/-- Witness for C1 at a concrete input: two levels with availability 2 and
100, allocation 5; the first level is clamped to 2, the second gets 2. -/
theorem even_distribution_per_level_spec_witness :
    EvenDistributionStrategy.distribute_questions [] 5 none = [] ∧
    (EvenDistributionStrategy.distribute_questions
        [⟨1, 2⟩, ⟨2, 100⟩] 5 none).length = 2 ∧
    ∀ i, ∀ hi : i < ([⟨1, 2⟩, ⟨2, 100⟩] : List LevelAvailability).length,
      (EvenDistributionStrategy.distribute_questions [⟨1, 2⟩, ⟨2, 100⟩] 5 none)[i]? =
        some { level := ([⟨1, 2⟩, ⟨2, 100⟩] : List LevelAvailability)[i].level
               count := min ((5 : Int) / 2 + (if (i : Int) < (5 : Int) % 2 then 1 else 0))
                            ([⟨1, 2⟩, ⟨2, 100⟩] : List LevelAvailability)[i].count } :=
  even_distribution_per_level_spec [⟨1, 2⟩, ⟨2, 100⟩] 5 none (by decide)

/-- C2: for `T ≥ 1` and a non-empty topic list of length `N`, the allocator
gives every topic the same value `T / N`, independent of the topic and of
availability; the allocations sum to `N * (T / N) ≤ T`, the remainder
`T % N` going to no topic; on an empty topic list the allocation is 0. -/
theorem topic_allocation_even_split
    (t t' : TopicAvailability) (T : Int) (all : List TopicAvailability)
    (hT : 1 ≤ T) (hall : all ≠ []) :
    RecommendationService.calculate_topic_allocation t T all
      = T / (all.length : Int) ∧
    RecommendationService.calculate_topic_allocation t T all
      = RecommendationService.calculate_topic_allocation t' T all ∧
    (all.length : Int) * (T / (all.length : Int)) ≤ T ∧
    (all.length : Int) * (T / (all.length : Int)) + T % (all.length : Int) = T ∧
    RecommendationService.calculate_topic_allocation t T [] = 0 := by
  have hN : (0 : Int) < all.length := by
    have := List.length_pos.mpr hall
    exact_mod_cast this
  have hdef : RecommendationService.calculate_topic_allocation t T all
      = T / (all.length : Int) := by
    simp [RecommendationService.calculate_topic_allocation, hN]
  have hsum := Int.ediv_add_emod T (all.length : Int)
  have hmod : 0 ≤ T % (all.length : Int) := Int.emod_nonneg T (by omega)
  refine ⟨hdef, ?_, by omega, by omega, rfl⟩
  simp [RecommendationService.calculate_topic_allocation]

/-- Witness for C2 at a concrete input: 7 questions over two topics give
each topic 3, with remainder 1 dropped. -/
theorem topic_allocation_even_split_witness :
    RecommendationService.calculate_topic_allocation ⟨"A", []⟩ 7
        [⟨"A", []⟩, ⟨"B", []⟩] = (7 : Int) / 2 ∧
    RecommendationService.calculate_topic_allocation ⟨"A", []⟩ 7
        [⟨"A", []⟩, ⟨"B", []⟩]
      = RecommendationService.calculate_topic_allocation ⟨"B", []⟩ 7
        [⟨"A", []⟩, ⟨"B", []⟩] ∧
    (2 : Int) * ((7 : Int) / 2) ≤ 7 ∧
    (2 : Int) * ((7 : Int) / 2) + (7 : Int) % 2 = 7 ∧
    RecommendationService.calculate_topic_allocation ⟨"A", []⟩ 7 [] = 0 := by
  have h := topic_allocation_even_split ⟨"A", []⟩ ⟨"B", []⟩ 7
    [⟨"A", []⟩, ⟨"B", []⟩] (by decide) (by decide)
  simpa using h

/-- C7: for every level count `L > 0` and allocation `A ≥ 0`, the raw
pre-clamp per-level counts (`base + 1` for the first `A % L` indices,
`base` for the rest) sum to exactly `A`: `base * L + extra = A`. -/
theorem raw_sum_equals_allocation (L : Nat) (A : Int) (hL : 0 < L) (hA : 0 ≤ A) :
    ((List.range L).map
      (questions_for_level (A / (L : Int)) (A % (L : Int)))).sum = A :=
  sum_raw_counts L A hL hA

/-- Witness for C7 at `L = 3`, `A = 8`: raw counts are 3, 3, 2 and sum to 8. -/
theorem raw_sum_equals_allocation_witness :
    ((List.range 3).map
      (questions_for_level ((8 : Int) / 3) ((8 : Int) % 3))).sum = 8 :=
  raw_sum_equals_allocation 3 8 (by decide) (by decide)

/-- C8: the progress-aware strategy is behaviorally identical to the even
distribution strategy on every input. -/
theorem progress_aware_equals_even
    (available_levels : List LevelAvailability) (total_questions : Int)
    (topic_progress : Option TopicProgress) :
    ProgressAwareDistributionStrategy.distribute_questions available_levels
        total_questions topic_progress
      = EvenDistributionStrategy.distribute_questions available_levels
        total_questions topic_progress := rfl

/-! ## Helper lemmas about validation -/

lemma validate_topics_ok_iff (ts : List TopicAvailability) :
    validate_topics ts = .ok () ↔
      ∀ t ∈ ts, t.available ≠ [] ∧
        (t.available.map (fun level => level.count)).sum ≠ 0 := by
  induction ts with
  | nil => simp [validate_topics]
  | cons topic rest ih =>
    by_cases h1 : topic.available.isEmpty
    · simp [validate_topics, h1, List.isEmpty_iff.mp h1]
    · have h1' : topic.available ≠ [] := by simpa [List.isEmpty_iff] using h1
      by_cases h2 : (topic.available.map (fun level => level.count)).sum = 0
      · simp [validate_topics, h1, h2]
      · simp [validate_topics, h1, h2, ih, h1']

lemma validate_ok_iff (request : RecommendationRequest) :
    validate_recommendation_request request = .ok () ↔
      (request.user_topics ≠ [] ∧ 0 < request.total_questions ∧
        ∀ t ∈ request.user_topics, t.available ≠ [] ∧
          (t.available.map (fun level => level.count)).sum ≠ 0) := by
  by_cases h1 : request.user_topics.isEmpty
  · simp [validate_recommendation_request, h1, List.isEmpty_iff.mp h1]
  · have h1' : request.user_topics ≠ [] := by simpa [List.isEmpty_iff] using h1
    by_cases h2 : request.total_questions ≤ 0
    · have h2' : ¬ (0 : Int) < request.total_questions := by omega
      simp [validate_recommendation_request, h1, h2, h2']
    · have h2' : (0 : Int) < request.total_questions := by omega
      simp [validate_recommendation_request, h1, h2, h2', h1',
        validate_topics_ok_iff]

lemma validate_ok_facts (request : RecommendationRequest)
    (hv : validate_recommendation_request request = .ok ()) :
    request.user_topics ≠ [] ∧ 1 ≤ request.total_questions ∧
      ∀ t ∈ request.user_topics, t.available ≠ [] ∧
        (t.available.map (fun level => level.count)).sum ≠ 0 := by
  have h := (validate_ok_iff request).mp hv
  exact ⟨h.1, by omega, h.2.2⟩

lemma validate_topics_append_ok (pre rest : List TopicAvailability)
    (hpre : ∀ t ∈ pre, t.available ≠ [] ∧
      (t.available.map (fun level => level.count)).sum ≠ 0) :
    validate_topics (pre ++ rest) = validate_topics rest := by
  induction pre with
  | nil => rfl
  | cons topic pre' ih =>
    have h := hpre topic (by simp)
    have h1 : topic.available.isEmpty = false := by
      simpa [List.isEmpty_iff] using h.1
    simp only [List.cons_append, validate_topics, h1, Bool.false_eq_true,
      if_false, if_neg h.2]
    exact ih (fun t ht => hpre t (by simp [ht]))

lemma templated_prefix_getElem (n s : String) (i : Nat) (hi : i < 7) :
    ("Topic '" ++ n ++ s : String).data[i]? = ("Topic '" : String).data[i]? := by
  have hd : ("Topic '" ++ n ++ s : String).data
      = ("Topic '" : String).data ++ (n.data ++ s.data) := by
    rw [String.data_append, String.data_append, List.append_assoc]
  have hlen : (("Topic '" : String).data).length = 7 := rfl
  rw [hd, List.getElem?_append, if_pos (by omega)]

lemma templated_ne_fixed_at (n s m : String) (i : Nat) (hi : i < 7)
    (hne : ("Topic '" : String).data[i]? ≠ m.data[i]?) :
    ("Topic '" ++ n ++ s : String) ≠ m := by
  intro h
  have h0 := congrArg (fun x : String => x.data[i]?) h
  simp only at h0
  rw [templated_prefix_getElem n s i hi] at h0
  exact hne h0

lemma templated_ne_templated (n s s' : String) (hlen : s.length ≠ s'.length) :
    ("Topic '" ++ n ++ s : String) ≠ "Topic '" ++ n ++ s' := by
  intro h
  have h0 := congrArg String.length h
  rw [String.length_append, String.length_append, String.length_append,
    String.length_append] at h0
  omega

/-! ## C4 -/

/-- C4: validation rejects a request iff `user_topics` is empty, or
`total_questions ≤ 0`, or some topic's level list is empty, or some topic's
counts sum to 0 (equivalently: it accepts iff none of these hold); the rules
fire in declaration order — topics-empty, then total-questions, then the
topics in input order with empty-levels before zero-inventory — each with
its own distinct message; and a failed validation short-circuits the
endpoint, so no allocation is computed. -/
theorem validation_gate_spec (request : RecommendationRequest) :
    (validate_recommendation_request request = .ok () ↔
      (request.user_topics ≠ [] ∧ 0 < request.total_questions ∧
        ∀ t ∈ request.user_topics, t.available ≠ [] ∧
          (t.available.map (fun level => level.count)).sum ≠ 0)) ∧
    (request.user_topics = [] →
      validate_recommendation_request request
        = .error "At least one topic must be provided") ∧
    (request.user_topics ≠ [] → request.total_questions ≤ 0 →
      validate_recommendation_request request
        = .error "Total questions must be greater than 0") ∧
    (∀ pre topic post,
      request.user_topics = pre ++ topic :: post →
      0 < request.total_questions →
      (∀ t ∈ pre, t.available ≠ [] ∧
        (t.available.map (fun level => level.count)).sum ≠ 0) →
      (topic.available = [] →
        validate_recommendation_request request
          = .error ("Topic '" ++ topic.topic
              ++ "' must have at least one available level")) ∧
      (topic.available ≠ [] →
        (topic.available.map (fun level => level.count)).sum = 0 →
        validate_recommendation_request request
          = .error ("Topic '" ++ topic.topic ++ "' has no available questions"))) ∧
    (∀ name : String,
      ("At least one topic must be provided" : String)
        ≠ "Total questions must be greater than 0" ∧
      ("Topic '" ++ name ++ "' must have at least one available level" : String)
        ≠ "At least one topic must be provided" ∧
      ("Topic '" ++ name ++ "' must have at least one available level" : String)
        ≠ "Total questions must be greater than 0" ∧
      ("Topic '" ++ name ++ "' has no available questions" : String)
        ≠ "At least one topic must be provided" ∧
      ("Topic '" ++ name ++ "' has no available questions" : String)
        ≠ "Total questions must be greater than 0" ∧
      ("Topic '" ++ name ++ "' must have at least one available level" : String)
        ≠ "Topic '" ++ name ++ "' has no available questions") ∧
    (∀ e, validate_recommendation_request request = .error e →
      recommend_questions request = .error e) := by
  refine ⟨validate_ok_iff request, ?_, ?_, ?_, ?_, ?_⟩
  · intro h
    simp [validate_recommendation_request, h]
  · intro h1 h2
    simp [validate_recommendation_request, List.isEmpty_iff, h1, h2]
  · intro pre topic post heq hT hpre
    have hne : request.user_topics ≠ [] := by
      rw [heq]; simp
    have hie : request.user_topics.isEmpty = false := by
      simp [List.isEmpty_iff, hne]
    have hTle : ¬ request.total_questions ≤ 0 := by omega
    have hred : validate_recommendation_request request
        = validate_topics (topic :: post) := by
      simp only [validate_recommendation_request, hie, Bool.false_eq_true,
        if_false, if_neg hTle]
      rw [heq, validate_topics_append_ok pre _ hpre]
    constructor
    · intro hav
      rw [hred]
      simp [validate_topics, hav]
    · intro hav hsum
      have hie' : topic.available.isEmpty = false := by
        simp [List.isEmpty_iff, hav]
      rw [hred]
      simp [validate_topics, hie', hsum]
  · intro name
    refine ⟨by decide, ?_, ?_, ?_, ?_, ?_⟩
    · exact templated_ne_fixed_at name _ _ 0 (by omega) (by decide)
    · exact templated_ne_fixed_at name _ _ 2 (by omega) (by decide)
    · exact templated_ne_fixed_at name _ _ 0 (by omega) (by decide)
    · exact templated_ne_fixed_at name _ _ 2 (by omega) (by decide)
    · exact templated_ne_templated name _ _ (by decide)
  · intro e he
    simp [recommend_questions, he]

/-- Witness for C4 at concrete requests: each rule fires with its own
message on a request violating exactly that rule, and a clean request is
accepted. -/
theorem validation_gate_spec_witness :
    validate_recommendation_request ⟨1, 5, [], []⟩
      = .error "At least one topic must be provided" ∧
    validate_recommendation_request ⟨1, 0, [⟨"A", [⟨1, 1⟩]⟩], []⟩
      = .error "Total questions must be greater than 0" ∧
    validate_recommendation_request ⟨1, 5, [⟨"B", [⟨1, 2⟩]⟩, ⟨"A", []⟩], []⟩
      = .error "Topic 'A' must have at least one available level" ∧
    validate_recommendation_request ⟨1, 5, [⟨"A", [⟨1, 0⟩, ⟨2, 0⟩]⟩], []⟩
      = .error "Topic 'A' has no available questions" ∧
    validate_recommendation_request ⟨1, 5, [⟨"A", [⟨1, 2⟩]⟩], []⟩ = .ok () := by
  refine ⟨?_, ?_, ?_, ?_, ?_⟩
  · exact (validation_gate_spec ⟨1, 5, [], []⟩).2.1 rfl
  · exact (validation_gate_spec ⟨1, 0, [⟨"A", [⟨1, 1⟩]⟩], []⟩).2.2.1
      (by decide) (by decide)
  · exact ((validation_gate_spec ⟨1, 5, [⟨"B", [⟨1, 2⟩]⟩, ⟨"A", []⟩], []⟩).2.2.2.1
      [⟨"B", [⟨1, 2⟩]⟩] ⟨"A", []⟩ [] rfl (by decide) (by decide)).1 rfl
  · exact ((validation_gate_spec ⟨1, 5, [⟨"A", [⟨1, 0⟩, ⟨2, 0⟩]⟩], []⟩).2.2.2.1
      [] ⟨"A", [⟨1, 0⟩, ⟨2, 0⟩]⟩ [] rfl (by decide) (by decide)).2
      (by decide) (by decide)
  · exact (validation_gate_spec ⟨1, 5, [⟨"A", [⟨1, 2⟩]⟩], []⟩).1.mpr
      ⟨by decide, by decide, by decide⟩

/-! ## C5, C6 -/

lemma recommend_for_topic_progress_irrel
    (topic : TopicAvailability) (total_questions : Int)
    (p q : Option TopicProgress) (all_topics : List TopicAvailability) :
    RecommendationService.recommend_for_topic topic total_questions p all_topics
      = RecommendationService.recommend_for_topic topic total_questions q
          all_topics := rfl

/-- C5: two valid requests that agree on everything except `user_progress`
produce identical responses — historical progress never influences the
allocation. -/
theorem progress_noninterference (r1 r2 : RecommendationRequest)
    (hid : r1.user_id = r2.user_id)
    (hT : r1.total_questions = r2.total_questions)
    (ht : r1.user_topics = r2.user_topics)
    (hv1 : validate_recommendation_request r1 = .ok ())
    (hv2 : validate_recommendation_request r2 = .ok ()) :
    RecommendationService.generate_recommendations r1
      = RecommendationService.generate_recommendations r2 := by
  simp only [RecommendationService.generate_recommendations]
  rw [ht, hT]
  exact congrArg RecommendationResponse.mk
    (List.map_congr_left (fun topic _ =>
      recommend_for_topic_progress_irrel topic r2.total_questions
        (RecommendationService.create_progress_lookup r1.user_progress topic.topic)
        (RecommendationService.create_progress_lookup r2.user_progress topic.topic)
        r2.user_topics))

/-- Witness for C5: the same inventory with and without progress data gives
the same response. -/
theorem progress_noninterference_witness :
    RecommendationService.generate_recommendations
        ⟨1, 5, [⟨"A", [⟨1, 2⟩, ⟨2, 100⟩]⟩], []⟩
      = RecommendationService.generate_recommendations
        ⟨1, 5, [⟨"A", [⟨1, 2⟩, ⟨2, 100⟩]⟩], [⟨"A", [⟨1, 9, 9⟩]⟩]⟩ :=
  progress_noninterference
    ⟨1, 5, [⟨"A", [⟨1, 2⟩, ⟨2, 100⟩]⟩], []⟩
    ⟨1, 5, [⟨"A", [⟨1, 2⟩, ⟨2, 100⟩]⟩], [⟨"A", [⟨1, 9, 9⟩]⟩]⟩
    rfl rfl rfl rfl rfl

lemma recommend_for_topic_recommendations
    (topic : TopicAvailability) (total_questions : Int)
    (p : Option TopicProgress) (all_topics : List TopicAvailability) :
    (RecommendationService.recommend_for_topic topic total_questions p
        all_topics).recommendations
      = EvenDistributionStrategy.distribute_questions topic.available
          (RecommendationService.calculate_topic_allocation topic total_questions
            (if all_topics.isEmpty then [topic] else all_topics)) p := rfl

/-- C6: the response has exactly one `TopicRecommendation` per input topic,
in input order (the name at index `i` is the input topic's name), and each
`TopicRecommendation` has exactly one `LevelRecommendation` per input level
of that topic, in input order (the level id at index `j` is the input
level's id). -/
theorem response_shape (request : RecommendationRequest)
    (hv : validate_recommendation_request request = .ok ()) :
    (RecommendationService.generate_recommendations request).topics.length
      = request.user_topics.length ∧
    ∀ i, ∀ hi : i < request.user_topics.length,
      ∃ tr, (RecommendationService.generate_recommendations request).topics[i]?
          = some tr ∧
        tr.name = request.user_topics[i].topic ∧
        tr.recommendations.length = request.user_topics[i].available.length ∧
        ∀ j, ∀ hj : j < request.user_topics[i].available.length,
          ∃ lr, tr.recommendations[j]? = some lr ∧
            lr.level = request.user_topics[i].available[j].level := by
  constructor
  · simp [RecommendationService.generate_recommendations]
  · intro i hi
    refine ⟨RecommendationService.recommend_for_topic request.user_topics[i]
        request.total_questions
        (RecommendationService.create_progress_lookup request.user_progress
          request.user_topics[i].topic)
        request.user_topics, ?_, rfl, ?_, ?_⟩
    · simp [RecommendationService.generate_recommendations, List.getElem?_map,
        List.getElem?_eq_getElem hi]
    · rw [recommend_for_topic_recommendations]
      exact EvenDistributionStrategy.length_distribute _ _ _
    · intro j hj
      rw [recommend_for_topic_recommendations]
      exact ⟨_, EvenDistributionStrategy.distribute_getElem _ _ _ j hj, rfl⟩

/-- Witness for C6 on a concrete two-topic request. -/
theorem response_shape_witness :
    (RecommendationService.generate_recommendations
        ⟨1, 7, [⟨"A", [⟨1, 10⟩]⟩, ⟨"B", [⟨1, 10⟩]⟩], []⟩).topics.length = 2 ∧
    ∀ i, ∀ hi : i < ([⟨"A", [⟨1, 10⟩]⟩, ⟨"B", [⟨1, 10⟩]⟩]
        : List TopicAvailability).length,
      ∃ tr, (RecommendationService.generate_recommendations
          ⟨1, 7, [⟨"A", [⟨1, 10⟩]⟩, ⟨"B", [⟨1, 10⟩]⟩], []⟩).topics[i]? = some tr ∧
        tr.name = ([⟨"A", [⟨1, 10⟩]⟩, ⟨"B", [⟨1, 10⟩]⟩]
          : List TopicAvailability)[i].topic ∧
        tr.recommendations.length = ([⟨"A", [⟨1, 10⟩]⟩, ⟨"B", [⟨1, 10⟩]⟩]
          : List TopicAvailability)[i].available.length ∧
        ∀ j, ∀ hj : j < ([⟨"A", [⟨1, 10⟩]⟩, ⟨"B", [⟨1, 10⟩]⟩]
            : List TopicAvailability)[i].available.length,
          ∃ lr, tr.recommendations[j]? = some lr ∧
            lr.level = ([⟨"A", [⟨1, 10⟩]⟩, ⟨"B", [⟨1, 10⟩]⟩]
              : List TopicAvailability)[i].available[j].level :=
  response_shape ⟨1, 7, [⟨"A", [⟨1, 10⟩]⟩, ⟨"B", [⟨1, 10⟩]⟩], []⟩ rfl

/-! ## C3 -/

lemma generate_topics_getElem (request : RecommendationRequest)
    (i : Nat) (hi : i < request.user_topics.length) :
    (RecommendationService.generate_recommendations request).topics[i]?
      = some (RecommendationService.recommend_for_topic request.user_topics[i]
          request.total_questions
          (RecommendationService.create_progress_lookup request.user_progress
            request.user_topics[i].topic)
          request.user_topics) := by
  simp [RecommendationService.generate_recommendations, List.getElem?_map,
    List.getElem?_eq_getElem hi]

/-- C3: on a request that passes validation (with the pydantic `ge=0`
constraint on availability counts), every recommended count lies between 0
and the available count of the corresponding input level. -/
theorem recommended_counts_clamped (request : RecommendationRequest)
    (hv : validate_recommendation_request request = .ok ())
    (hc : ∀ t ∈ request.user_topics, ∀ l ∈ t.available, 0 ≤ l.count) :
    ∀ (i j : Nat) (ta : TopicAvailability) (la : LevelAvailability)
      (tr : TopicRecommendation) (lr : LevelRecommendation),
      request.user_topics[i]? = some ta →
      ta.available[j]? = some la →
      (RecommendationService.generate_recommendations request).topics[i]?
        = some tr →
      tr.recommendations[j]? = some lr →
      0 ≤ lr.count ∧ lr.count ≤ la.count := by
  intro i j ta la tr lr hta hla htr hlr
  obtain ⟨hne, hT, htopics⟩ := validate_ok_facts request hv
  have hi : i < request.user_topics.length := by
    by_contra h
    rw [List.getElem?_eq_none (by omega)] at hta
    cases hta
  have hj : j < ta.available.length := by
    by_contra h
    rw [List.getElem?_eq_none (by omega)] at hla
    cases hla
  have hta' : request.user_topics[i] = ta := by
    rw [List.getElem?_eq_getElem hi] at hta
    exact Option.some.inj hta
  have hla' : ta.available[j] = la := by
    rw [List.getElem?_eq_getElem hj] at hla
    exact Option.some.inj hla
  rw [generate_topics_getElem request i hi] at htr
  have htr' := (Option.some.inj htr).symm
  subst htr'
  rw [recommend_for_topic_recommendations] at hlr
  rw [EvenDistributionStrategy.distribute_getElem _ _ _ j (by rw [hta']; exact hj)]
    at hlr
  have hlr' := (Option.some.inj hlr).symm
  subst hlr'
  simp only [hta', hla']
  -- the allocation is nonnegative
  have hie : request.user_topics.isEmpty = false := by
    simp [List.isEmpty_iff, hne]
  have hN : (0 : Int) < request.user_topics.length := by
    have := List.length_pos.mpr hne
    exact_mod_cast this
  have halloc : 0 ≤ RecommendationService.calculate_topic_allocation
      request.user_topics[i] request.total_questions
      (if request.user_topics.isEmpty then [request.user_topics[i]]
        else request.user_topics) := by
    simp only [hie, Bool.false_eq_true, if_false,
      RecommendationService.calculate_topic_allocation, if_pos hN]
    exact Int.ediv_nonneg (by omega) (by omega)
  rw [hta'] at halloc
  simp only [hie, Bool.false_eq_true, if_false] at halloc ⊢
  have hcount : 0 ≤ la.count :=
    hc ta (by rw [← hta']; exact List.getElem_mem _) la (List.getElem?_mem hla)
  constructor
  · apply le_min _ hcount
    have hbase : 0 ≤ RecommendationService.calculate_topic_allocation ta
        request.total_questions request.user_topics
        / (ta.available.length : Int) := Int.ediv_nonneg halloc (by positivity)
    unfold questions_for_level
    split
    · omega
    · omega
  · exact min_le_right _ _

/-- Witness for C3: on a concrete request the first level's recommendation
(clamped from 3 to 2) is between 0 and the level's availability. -/
theorem recommended_counts_clamped_witness :
    0 ≤ (LevelRecommendation.mk 1 2).count ∧
      (LevelRecommendation.mk 1 2).count ≤ (LevelAvailability.mk 1 2).count :=
  recommended_counts_clamped ⟨1, 5, [⟨"A", [⟨1, 2⟩, ⟨2, 100⟩]⟩], []⟩ rfl
    (by decide) 0 0 ⟨"A", [⟨1, 2⟩, ⟨2, 100⟩]⟩ ⟨1, 2⟩ ⟨"A", [⟨1, 2⟩, ⟨2, 2⟩]⟩
    ⟨1, 2⟩ rfl rfl rfl rfl

/-! ## C9 -/

lemma distribute_counts_sum_le (l : List LevelAvailability) (A : Int)
    (p : Option TopicProgress) (hA : 0 ≤ A) :
    ((EvenDistributionStrategy.distribute_questions l A p).map
      (fun rec => rec.count)).sum ≤ A := by
  cases l with
  | nil => simpa [EvenDistributionStrategy.distribute_questions] using hA
  | cons a as =>
    have hexpand : (EvenDistributionStrategy.distribute_questions (a :: as) A p).map
        (fun rec => rec.count)
        = (a :: as).enum.map (fun q : Nat × LevelAvailability =>
            min (questions_for_level (A / ((a :: as).length : Int))
              (A % ((a :: as).length : Int)) q.1) q.2.count) := by
      simp [EvenDistributionStrategy.distribute_questions, List.map_map,
        Function.comp]
    rw [hexpand]
    have hstep : ((a :: as).enum.map (fun q : Nat × LevelAvailability =>
        min (questions_for_level (A / ((a :: as).length : Int))
          (A % ((a :: as).length : Int)) q.1) q.2.count)).sum
        ≤ ((a :: as).enum.map (fun q : Nat × LevelAvailability =>
            questions_for_level (A / ((a :: as).length : Int))
              (A % ((a :: as).length : Int)) q.1)).sum :=
      List.sum_le_sum (fun q _ => min_le_left _ _)
    have hcompose : ((a :: as).enum.map (fun q : Nat × LevelAvailability =>
        questions_for_level (A / ((a :: as).length : Int))
          (A % ((a :: as).length : Int)) q.1)).sum
        = ((List.range (a :: as).length).map
            (questions_for_level (A / ((a :: as).length : Int))
              (A % ((a :: as).length : Int)))).sum := by
      rw [← List.enum_map_fst (a :: as), List.map_map]
      rfl
    rw [hcompose, sum_raw_counts (a :: as).length A (by simp) hA] at hstep
    exact hstep

lemma recommend_for_topic_total (topic : TopicAvailability) (T : Int)
    (p : Option TopicProgress) (all : List TopicAvailability) (hall : all ≠ []) :
    (RecommendationService.recommend_for_topic topic T p all).total_recommended
      = ((EvenDistributionStrategy.distribute_questions topic.available
          (T / (all.length : Int)) p).map (fun rec => rec.count)).sum := by
  have hie : all.isEmpty = false := by simp [List.isEmpty_iff, hall]
  have hN : (0 : Int) < all.length := by
    have := List.length_pos.mpr hall
    exact_mod_cast this
  simp [RecommendationService.recommend_for_topic,
    TopicRecommendation.total_recommended,
    RecommendationService.calculate_topic_allocation, hie, hN]

/-- C9: on a request that passes validation, the overall
`total_recommended` of the response is at most `total_questions`. -/
theorem total_recommended_le_total_questions (request : RecommendationRequest)
    (hv : validate_recommendation_request request = .ok ()) :
    (RecommendationService.generate_recommendations request).total_recommended
      ≤ request.total_questions := by
  obtain ⟨hne, hT, htopics⟩ := validate_ok_facts request hv
  have hN : (0 : Int) < request.user_topics.length := by
    have := List.length_pos.mpr hne
    exact_mod_cast this
  have halloc : 0 ≤ request.total_questions / (request.user_topics.length : Int) :=
    Int.ediv_nonneg (by omega) (by omega)
  have hexp : (RecommendationService.generate_recommendations
      request).total_recommended
      = (request.user_topics.map (fun topic =>
          (RecommendationService.recommend_for_topic topic
            request.total_questions
            (RecommendationService.create_progress_lookup request.user_progress
              topic.topic)
            request.user_topics).total_recommended)).sum := by
    simp only [RecommendationService.generate_recommendations,
      RecommendationResponse.total_recommended, List.map_map]
    rfl
  rw [hexp]
  have hb : ∀ topic ∈ request.user_topics,
      (RecommendationService.recommend_for_topic topic request.total_questions
        (RecommendationService.create_progress_lookup request.user_progress
          topic.topic)
        request.user_topics).total_recommended
      ≤ request.total_questions / (request.user_topics.length : Int) := by
    intro topic _
    rw [recommend_for_topic_total _ _ _ _ hne]
    exact distribute_counts_sum_le _ _ _ halloc
  have hstep := List.sum_le_sum hb
  have hconst : (request.user_topics.map (fun _ =>
      request.total_questions / (request.user_topics.length : Int))).sum
      = (request.user_topics.length : Int)
        * (request.total_questions / (request.user_topics.length : Int)) := by
    rw [List.map_const', List.sum_replicate, nsmul_eq_mul]
  rw [hconst] at hstep
  have hdm := Int.ediv_add_emod request.total_questions
    (request.user_topics.length : Int)
  have hmod : 0 ≤ request.total_questions % (request.user_topics.length : Int) :=
    Int.emod_nonneg _ (by omega)
  omega

/-- Witness for C9: 7 questions over two one-level topics yield 6
recommendations in total. -/
theorem total_recommended_le_total_questions_witness :
    (RecommendationService.generate_recommendations
        ⟨1, 7, [⟨"A", [⟨1, 10⟩]⟩, ⟨"B", [⟨1, 10⟩]⟩], []⟩).total_recommended ≤ 7 :=
  total_recommended_le_total_questions
    ⟨1, 7, [⟨"A", [⟨1, 10⟩]⟩, ⟨"B", [⟨1, 10⟩]⟩], []⟩ rfl

/-! ## C10 -/

lemma mapM_option_eq_map {α β : Type} (f : α → Option β) (g : α → β)
    (l : List α) (h : ∀ x ∈ l, f x = some (g x)) :
    l.mapM f = some (l.map g) := by
  induction l with
  | nil => rfl
  | cons a as ih =>
    rw [List.mapM_cons, h a (by simp),
      ih (fun x hx => h x (by simp [hx]))]
    rfl

lemma calculate_topic_allocation_checked_eq (t : TopicAvailability) (T : Int)
    (all : List TopicAvailability) :
    RecommendationService.calculate_topic_allocation_checked t T all
      = some (RecommendationService.calculate_topic_allocation t T all) := by
  by_cases h : (0 : Int) < (all.length : Int)
  · have h' : all ≠ [] := by
      have h0 : 0 < all.length := by exact_mod_cast h
      exact List.length_pos.mp h0
    simp [RecommendationService.calculate_topic_allocation_checked,
      RecommendationService.calculate_topic_allocation, checked_div, h, h',
      (by omega : ¬((all.length : Int) = 0))]
  · simp [RecommendationService.calculate_topic_allocation_checked,
      RecommendationService.calculate_topic_allocation, h]

lemma calculate_topic_allocation_nonneg (t : TopicAvailability) (T : Int)
    (all : List TopicAvailability) (hT : 0 ≤ T) :
    0 ≤ RecommendationService.calculate_topic_allocation t T all := by
  by_cases h : (0 : Int) < (all.length : Int)
  · simp only [RecommendationService.calculate_topic_allocation, if_pos h]
    exact Int.ediv_nonneg hT (by omega)
  · simp [RecommendationService.calculate_topic_allocation, h]

lemma distribute_questions_checked_eq (l : List LevelAvailability) (A : Int)
    (p : Option TopicProgress) (hA : 0 ≤ A) (hc : ∀ x ∈ l, 0 ≤ x.count) :
    EvenDistributionStrategy.distribute_questions_checked l A p
      = some (EvenDistributionStrategy.distribute_questions l A p) := by
  cases l with
  | nil => rfl
  | cons a as =>
    have hL : (0 : Int) < ((a :: as).length : Int) := by
      exact_mod_cast Nat.succ_pos as.length
    simp only [EvenDistributionStrategy.distribute_questions_checked,
      EvenDistributionStrategy.distribute_questions, List.isEmpty_cons,
      Bool.false_eq_true, if_false, checked_div, checked_mod,
      if_neg (by omega : ¬(((a :: as).length : Int) = 0)), Option.some_bind]
    apply mapM_option_eq_map
    intro q hq
    have hbase : 0 ≤ A / ((a :: as).length : Int) :=
      Int.ediv_nonneg hA (by omega)
    have hcnt : 0 ≤ q.2.count := by
      apply hc
      have : q.2 ∈ ((a :: as).enum.map Prod.snd) := List.mem_map_of_mem _ hq
      rwa [List.enum_map_snd] at this
    have hq0 : 0 ≤ min (questions_for_level (A / ((a :: as).length : Int))
        (A % ((a :: as).length : Int)) q.1) q.2.count := by
      apply le_min _ hcnt
      unfold questions_for_level
      split
      · omega
      · omega
    rw [checked_mk_level_recommendation, if_pos hq0]

lemma recommend_for_topic_checked_eq (topic : TopicAvailability) (T : Int)
    (p : Option TopicProgress) (all : List TopicAvailability)
    (hT : 0 ≤ T) (hav : ∀ x ∈ topic.available, 0 ≤ x.count) :
    RecommendationService.recommend_for_topic_checked topic T p all
      = some (RecommendationService.recommend_for_topic topic T p all) := by
  rw [RecommendationService.recommend_for_topic_checked,
    calculate_topic_allocation_checked_eq, Option.some_bind,
    distribute_questions_checked_eq _ _ _
      (calculate_topic_allocation_nonneg _ _ _ hT) hav, Option.some_bind]
  rfl

/-- C10: on any request satisfying the validation preconditions (non-empty
topics, `total_questions ≥ 1`, non-empty level lists, non-negative counts),
the generation pipeline with all Python failure points made explicit
(division by zero, pydantic `ge=0` on output counts) completes successfully
and agrees with the total model — no exception can be raised. -/
theorem generate_recommendations_no_failure (request : RecommendationRequest)
    (h1 : request.user_topics ≠ []) (h2 : 1 ≤ request.total_questions)
    (h3 : ∀ t ∈ request.user_topics, t.available ≠ [])
    (h4 : ∀ t ∈ request.user_topics, ∀ l ∈ t.available, 0 ≤ l.count) :
    RecommendationService.generate_recommendations_checked request
      = some (RecommendationService.generate_recommendations request) := by
  rw [RecommendationService.generate_recommendations_checked,
    RecommendationService.generate_recommendations]
  rw [mapM_option_eq_map _ (fun topic =>
      RecommendationService.recommend_for_topic topic request.total_questions
        (RecommendationService.create_progress_lookup request.user_progress
          topic.topic)
        request.user_topics) _
    (fun topic ht => recommend_for_topic_checked_eq topic
      request.total_questions _ request.user_topics (by omega)
      (h4 topic ht))]
  rfl

/-- Witness for C10 on a concrete request satisfying the preconditions. -/
theorem generate_recommendations_no_failure_witness :
    RecommendationService.generate_recommendations_checked
        ⟨1, 5, [⟨"A", [⟨1, 2⟩, ⟨2, 100⟩]⟩], []⟩
      = some (RecommendationService.generate_recommendations
          ⟨1, 5, [⟨"A", [⟨1, 2⟩, ⟨2, 100⟩]⟩], []⟩) :=
  generate_recommendations_no_failure ⟨1, 5, [⟨"A", [⟨1, 2⟩, ⟨2, 100⟩]⟩], []⟩
    (by decide) (by decide) (by decide) (by decide)
